import Mathlib

set_option autoImplicit false
set_option maxRecDepth 8000

/-
Shallow embedding of the Webscraper repository's identifier-generation,
sequencing, dual-store persistence, scheduling and manual-capture code
(src/modules/utils.py, databasemanager.py, configmanager.py, scheduler.py,
main.py).  Machine integers are modelled as Nat/Int, SQLite tables as lists
of rows, the random sources (random.choices) as explicit pick streams, and
the wall clock as an explicit record carrying both the local and the UTC
reading.  External collaborators (HTML fetch, requests_html parsing,
json.dumps, the supabase client) enter as function parameters or injected
fault flags, mirroring the narrow interfaces the source uses.
-/

namespace Webscraper

/-- Zero-fill a string on the left to width `w`; this is the padding used by
Python format specifiers such as `%02d` / `f-string 03d` and by `strftime`. -/
def zfill (w : Nat) (s : String) : String :=
  String.mk (List.replicate (w - s.length) ('0')) ++ s

/-- Python `f-string {n:02d}` on a nonnegative integer: decimal digits of `n`
zero-filled to width 2. -/
def fmt2 (n : Nat) : String := zfill 2 (Nat.repr n)

/-- Python `f-string {n:03d}` on a nonnegative integer: decimal digits of `n`
zero-filled to width 3 (utils.py line 67). -/
def fmt3 (n : Nat) : String := zfill 3 (Nat.repr n)

/-- Decimal digits of `n` zero-filled to width 4, as produced by
`strftime %Y` for calendar years. -/
def fmt4 (n : Nat) : String := zfill 4 (Nat.repr n)

/-- A wall-clock reading, second precision, as used by `datetime`. -/
structure DateTime where
  year : Nat
  month : Nat
  day : Nat
  hour : Nat
  minute : Nat
  second : Nat
deriving Repr, DecidableEq

/-- A calendar-sane reading (what `datetime.now()` can actually return). -/
def DateTime.Valid (t : DateTime) : Prop :=
  t.year ≤ 9999 ∧ 1 ≤ t.month ∧ t.month ≤ 12 ∧ 1 ≤ t.day ∧ t.day ≤ 31 ∧
    t.hour ≤ 23 ∧ t.minute ≤ 59 ∧ t.second ≤ 59

instance (t : DateTime) : Decidable t.Valid := by
  unfold DateTime.Valid; infer_instance

/-- `strftime("%Y%m%d%H%M%S")` (utils.py line 52). -/
def strftimeYmdHMS (t : DateTime) : String :=
  fmt4 t.year ++ fmt2 t.month ++ fmt2 t.day ++ fmt2 t.hour ++ fmt2 t.minute ++
    fmt2 t.second

/-- `datetime.now(timezone.utc).isoformat()` (databasemanager.py lines
199-200); the exact rendering is immaterial to the claims, only that it is a
function of the UTC reading. -/
def isoUtc (t : DateTime) : String :=
  fmt4 t.year ++ ("-") ++ fmt2 t.month ++ ("-") ++ fmt2 t.day ++ ("T") ++
    fmt2 t.hour ++ (":") ++ fmt2 t.minute ++ (":") ++ fmt2 t.second ++ ("+00:00")

/-- The process wall clock.  `datetime.now()` reads `localNow` (no timezone
argument: local system time); `datetime.now(timezone.utc)` reads `utcNow`. -/
structure Clock where
  localNow : DateTime
  utcNow : DateTime
deriving Repr, DecidableEq

/-- `string.ascii_uppercase`. -/
def uppercaseChars : List Char :=
  ("ABCDEFGHIJKLMNOPQRSTUVWXYZ").data

/-- `string.ascii_uppercase + string.digits` (utils.py line 56). -/
def alphaNumChars : List Char :=
  ("ABCDEFGHIJKLMNOPQRSTUVWXYZ0123456789").data

/-- The in-memory configuration dictionary `CONFIG` restricted to the fields
the claims touch: `URL_CODES` (url to two-letter code mapping, kept in .env
insertion order) and `LAST_MANUAL_PREFIX` (configmanager.py lines 57-67). -/
structure Config where
  urlCodes : List (String × String)
  lastManualPrefixChar : String
deriving Repr, DecidableEq

/-- First-match association lookup, the dict access `CONFIG[URL_CODES][url]`
(keys are unique in a Python dict, so first match is the match). -/
def lookupStr : List (String × String) → String → Option String
  | [], _ => none
  | (k0, v0) :: rest, k => if k0 = k then some v0 else lookupStr rest k

/-- One candidate code: the join of `random.choices(string.ascii_uppercase, k=2)`
(configmanager.py line 249), driven by a pick stream. -/
def codeOfPick (p : Nat × Nat) : String :=
  String.mk [uppercaseChars.getD (p.1 % 26) ('A'), uppercaseChars.getD (p.2 % 26) ('A')]

def MAX_CODE_GENERATION_ATTEMPTS : Nat := 1000

/-- The bounded generation loop of configmanager.py lines 248-252: up to 1000
random candidates, the first one not already assigned wins. -/
def genNewCode (picks : Nat → Nat × Nat) (existing : List String) : Option String :=
  ((List.range MAX_CODE_GENERATION_ATTEMPTS).map (fun i => codeOfPick (picks i))).find?
    (fun c => !(existing.contains c))

/-- `get_or_assign_url_code` (configmanager.py lines 222-272): empty url
fails; a url already bound returns its code with no state change; otherwise a
fresh code not colliding with any assigned code is generated, bound and
persisted (the persisted mapping gains the new pair). -/
def get_or_assign_url_code (picks : Nat → Nat × Nat) (cfg : Config) (url : String) :
    Option String × Config :=
  if url = ("") then (none, cfg)
  else
    match lookupStr cfg.urlCodes url with
    | some code => (some code, cfg)
    | none =>
      match genNewCode picks (cfg.urlCodes.map Prod.snd) with
      | none => (none, cfg)
      | some newCode =>
        (some newCode, { cfg with urlCodes := cfg.urlCodes ++ [(url, newCode)] })

/-- One row of the `scraped_pages` table (databasemanager.py lines 19-30). -/
structure CaptureRow where
  capture_uuid : String
  url : String
  scrape_timestamp : String
  scrape_type : String
  html_content : String
  identical_match : Nat
  version : Nat
deriving Repr, DecidableEq

/-- One row of the `html_tag_data` table (databasemanager.py lines 32-42);
`attributes` holds the JSON-serialized attribute dict. -/
structure TagRow where
  capture_uuid : String
  tag_type : String
  content : String
  location : String
  attributes : String
deriving Repr, DecidableEq

/-- The local SQLite database: scraped_pages, html_tag_data and
sequential_counters (composite key url_code x prefix_char, INTEGER value). -/
structure LocalDB where
  scraped_pages : List CaptureRow
  html_tag_data : List TagRow
  sequential_counters : List ((String × String) × Int)
deriving Repr, DecidableEq

/-- Row lookup in sequential_counters by its composite primary key. -/
def lookupSeq : List ((String × String) × Int) → (String × String) → Option Int
  | [], _ => none
  | (k0, v0) :: rest, k => if k0 = k then some v0 else lookupSeq rest k

/-- The SQL `UPDATE ... SET last_sequence = v WHERE key` on the unique
matching row. -/
def setSeq : List ((String × String) × Int) → (String × String) → Int →
    List ((String × String) × Int)
  | [], k, v => [(k, v)]
  | (k0, v0) :: rest, k, v =>
    if k0 = k then (k, v) :: rest else (k0, v0) :: setSeq rest k v

/-- `get_next_sequence` (databasemanager.py lines 159-187).  With no
connection it fails.  Otherwise: `UPDATE ... SET last_sequence =
last_sequence + 1 WHERE url_code = ? AND prefix_char = ?`; if no row was
touched, `INSERT ... VALUES (?, ?, 1)` and return 1; else re-SELECT and
return the incremented value.  Each successful outcome is committed. -/
def get_next_sequence :
    Option LocalDB → String → String → Option Int × Option LocalDB
  | none, _, _ => (none, none)
  | some db, url_code, prefix_char =>
    match lookupSeq db.sequential_counters (url_code, prefix_char) with
    | none =>
      (some 1,
        some { db with
          sequential_counters :=
            db.sequential_counters ++ [((url_code, prefix_char), 1)] })
    | some v =>
      (some (v + 1),
        some { db with
          sequential_counters :=
            setSeq db.sequential_counters (url_code, prefix_char) (v + 1) })

/-- The mutable process state save/generate act on: the global `CONFIG`
(configmanager) and the module-level SQLite connection, `none` when no
connection could be established. -/
structure PState where
  cfg : Config
  conn : Option LocalDB
deriving Repr, DecidableEq

/-- `valid_prefixes = ['P', 'B', 'T', 'M']` (utils.py line 28). -/
def valid_prefixes : List String := [("P"), ("B"), ("T"), ("M")]

/-- The run_number_str validation of utils.py line 33: a 2-character string
of decimal digits. -/
def isTwoDigit (s : String) : Bool :=
  s.length = 2 && s.data.all Char.isDigit

/-- The salt: the join of `random.choices(string.ascii_uppercase + string.digits, k=8)`
(utils.py line 56), driven by a pick stream. -/
def mkSalt (saltPicks : Nat → Nat) : String :=
  String.mk ((List.range 8).map (fun i => alphaNumChars.getD (saltPicks i % 36) ('A')))

/-- Outcome of `generate_custom_uuid`: the returned value, the process state
after the call (url-code assignment and the sequence side effect), and
whether the over-999 warning of utils.py line 65 was emitted. -/
structure GenResult where
  uuid : Option String
  state : PState
  warned : Bool
deriving Repr, DecidableEq

/-- `generate_custom_uuid` (utils.py lines 21-72).  Validation in source
order: prefix_char in the allowed set, run_number_str a 2-digit string, url
non-empty (the callable check is vacuous in a typed embedding).  Then the url
code is resolved, the timestamp is read from `datetime.now()` — the LOCAL
clock — the 8-character salt is drawn, and the sequence callable is invoked;
a missing or negative sequence fails, a sequence above 999 is capped to 999
with a warning, and the six components are concatenated. -/
def generate_custom_uuid (codePicks : Nat → Nat × Nat) (clock : Clock)
    (saltPicks : Nat → Nat) (prefix_char run_number_str url : String)
    (seqFn : PState → String → String → Option Int × PState)
    (st : PState) : GenResult :=
  if prefix_char ∈ valid_prefixes then
    if isTwoDigit run_number_str then
      if url = ("") then ⟨none, st, false⟩
      else
        match get_or_assign_url_code codePicks st.cfg url with
        | (none, cfg1) => ⟨none, ⟨cfg1, st.conn⟩, false⟩
        | (some url_code, cfg1) =>
          let timestamp_str := strftimeYmdHMS clock.localNow
          let random_part_str := mkSalt saltPicks
          match seqFn ⟨cfg1, st.conn⟩ url_code prefix_char with
          | (none, st2) => ⟨none, st2, false⟩
          | (some sequence_int, st2) =>
            if sequence_int < 0 then ⟨none, st2, false⟩
            else
              let warned := decide (999 < sequence_int)
              let capped : Int := if 999 < sequence_int then 999 else sequence_int
              let sequence_str := fmt3 capped.toNat
              ⟨some (prefix_char ++ run_number_str ++ url_code ++ timestamp_str ++
                  random_part_str ++ sequence_str), st2, warned⟩
    else ⟨none, st, false⟩
  else ⟨none, st, false⟩

/-- The sequence callable save_scrape_data passes to generate_custom_uuid
(databasemanager.py line 194): the real `get_next_sequence` acting on the
module-level connection. -/
def dbNextSeq (st : PState) (url_code prefix_char : String) :
    Option Int × PState :=
  let r := get_next_sequence st.conn url_code prefix_char
  (r.1, ⟨st.cfg, r.2⟩)

/-- One record produced by the tag-extraction collaborator
(`parse_html_tags_from_list` over `HTML(html).find('*')`): tag type, text
content, structural path, and the attribute dict. -/
structure TagInfo where
  tag_type : String
  content : String
  location : String
  attributes : List (String × String)
deriving Repr, DecidableEq

/-- Stand-in for `json.dumps` on the attribute dict; the claims never
inspect the serialized text, only that the stored column is a function of
the attributes. -/
def jsonDumps (attrs : List (String × String)) : String :=
  String.intercalate (", ") (attrs.map (fun kv => kv.1 ++ (": ") ++ kv.2))

/-- The html_tag_data row built for one extracted tag (databasemanager.py
lines 247-252). -/
def mkTagRow (capture_id : String) (t : TagInfo) : TagRow :=
  ⟨capture_id, t.tag_type, t.content, t.location, jsonDumps t.attributes⟩

/-- The remote (Supabase) store: the two mirrored tables. -/
structure RemoteDB where
  scraped_pages : List CaptureRow
  html_tag_data : List TagRow
deriving Repr, DecidableEq

/-- Injected failures of the local SQLite calls inside one save:
`mainInsertFault` — the main INSERT raises; `parseFault` — building the HTML
object or extracting tags raises; `tagFault i` — the INSERT of the i-th tag
row raises (caught per-tag at lines 253-254); `commitFault` — the final
commit raises; `dupCheckFault` — the identical-content SELECT raises (caught
at lines 211-212). -/
structure LocalFaults where
  mainInsertFault : Bool
  parseFault : Bool
  tagFault : Nat → Bool
  commitFault : Bool
  dupCheckFault : Bool

/-- A fault-free local run. -/
def noLocalFaults : LocalFaults := ⟨false, false, fun _ => false, false, false⟩

/-- The remote side of one save: whether a Supabase client is configured,
and the injected failures — `raiseFault`: the main remote insert raises (the
outer except skips the whole mirror section); `mainFault`: the main remote
insert returns an error response (logged, tag loop still runs);
`tagFault i`: the i-th remote tag insert fails (counted, loop continues). -/
structure RemoteFaults where
  clientConfigured : Bool
  raiseFault : Bool
  mainFault : Bool
  tagFault : Nat → Bool

/-- A configured, fault-free remote. -/
def remoteOk : RemoteFaults := ⟨true, false, false, fun _ => false⟩

/-- A remote that is not configured (no Supabase client). -/
def remoteOff : RemoteFaults := ⟨false, false, false, fun _ => false⟩

/-- Outcome of one `save_scrape_data` call: the returned value, the process
state, the remote store, whether the remote mirror section ran, and how many
tag rows the remote accepted. -/
structure SaveResult where
  result : Option String
  state : PState
  remote : RemoteDB
  remoteAttempted : Bool
  tagsSavedRemote : Nat
deriving Repr, DecidableEq

/-- The identical-content check of save_scrape_data (lines 202-214): with no
connection, or when the SELECT raises (caught), the flag defaults to 0;
otherwise it is 1 exactly when some existing capture of the same url has
byte-identical content. -/
def identicalFlag (lf : LocalFaults) (conn : Option LocalDB)
    (url html_content : String) : Nat :=
  match conn with
  | none => 0
  | some db =>
    if lf.dupCheckFault then 0
    else if db.scraped_pages.any
        (fun r => r.url = url && r.html_content = html_content) then 1
    else 0

/-- The local transaction of save_scrape_data (lines 225-269): stage the
capture row; extract tags; stage each tag row, where a failing individual
tag INSERT is caught and merely logged (lines 253-254) so the transaction
continues without that row; commit both kinds together.  An uncaught
failure — main INSERT (including the UNIQUE constraint on capture_uuid),
tag extraction, or the commit — rolls the whole transaction back.  Returns
(saved_locally, state after, tag_data_list). -/
def local_save_phase (extract : String → List TagInfo) (lf : LocalFaults)
    (st1 : PState) (capture_id : String) (row : CaptureRow)
    (html_content : String) : Bool × PState × List TagInfo :=
  match st1.conn with
  | none => (false, st1, [])
  | some db =>
    if lf.mainInsertFault || db.scraped_pages.any (fun r => r.capture_uuid = capture_id) then
      (false, st1, [])
    else if lf.parseFault then (false, st1, [])
    else
      let tag_data_list := extract html_content
      let keptTags := ((tag_data_list.enum.filter (fun p => !(lf.tagFault p.1))).map
        (fun p => mkTagRow capture_id p.2))
      if lf.commitFault then (false, st1, tag_data_list)
      else
        (true,
          ⟨st1.cfg, some { db with
            scraped_pages := db.scraped_pages ++ [row],
            html_tag_data := db.html_tag_data ++ keptTags }⟩,
          tag_data_list)

/-- The Supabase mirror section of save_scrape_data (lines 276-310), reached
only when the local save succeeded: insert the capture row (an exception
aborts the section via the outer except; an error response is only logged),
then insert each tag row individually, counting successes.  Returns the
remote store and the count of remotely saved tags. -/
def supabase_mirror (rf : RemoteFaults) (row : CaptureRow) (capture_id : String)
    (tag_data_list : List TagInfo) (remote : RemoteDB) : RemoteDB × Nat :=
  if rf.raiseFault then (remote, 0)
  else
    let remote1 :=
      if rf.mainFault then remote
      else { remote with scraped_pages := remote.scraped_pages ++ [row] }
    let keptTags := ((tag_data_list.enum.filter (fun p => !(rf.tagFault p.1))).map
      (fun p => mkTagRow capture_id p.2))
    ({ remote1 with html_tag_data := remote1.html_tag_data ++ keptTags },
      keptTags.length)

/-- `save_scrape_data` (databasemanager.py lines 189-321).  Empty content is
rejected with no state change; the identifier is generated (its url-code and
sequence side effects are committed separately and survive any later
rollback); the identical-content flag is computed best-effort; the local
transaction runs; only if it committed and a Supabase client is configured
does the remote mirror run; remote failures never change the local outcome;
the identifier is returned exactly when the local save succeeded. -/
def save_scrape_data (extract : String → List TagInfo)
    (codePicks : Nat → Nat × Nat) (clock : Clock) (saltPicks : Nat → Nat)
    (lf : LocalFaults) (rf : RemoteFaults) (st : PState) (remote : RemoteDB)
    (url html_content scrape_type prefix_char run_number_str : String)
    (version : Nat) : SaveResult :=
  if html_content = ("") then ⟨none, st, remote, false, 0⟩
  else
    match generate_custom_uuid codePicks clock saltPicks prefix_char
        run_number_str url dbNextSeq st with
    | ⟨none, st1, _⟩ => ⟨none, st1, remote, false, 0⟩
    | ⟨some capture_id, st1, _⟩ =>
      let timestamp_iso := isoUtc clock.utcNow
      let identical_match_value : Nat :=
        identicalFlag lf st1.conn url html_content
      let row : CaptureRow :=
        ⟨capture_id, url, timestamp_iso, scrape_type, html_content,
          identical_match_value, version⟩
      let lp := local_save_phase extract lf st1 capture_id row html_content
      if lp.1 then
        if rf.clientConfigured then
          let m := supabase_mirror rf row capture_id lp.2.2 remote
          ⟨some capture_id, lp.2.1, m.1, true, m.2⟩
        else ⟨some capture_id, lp.2.1, remote, false, 0⟩
      else ⟨none, lp.2.1, remote, false, 0⟩

/-- The capture rows visible through an optional connection. -/
def connCaptures : Option LocalDB → List CaptureRow
  | none => []
  | some db => db.scraped_pages

/-- The tag rows visible through an optional connection. -/
def connTags : Option LocalDB → List TagRow
  | none => []
  | some db => db.html_tag_data

/-- `perform_scrape` (scheduler.py lines 22-39): the prefix is P for a
primary scrape and B otherwise, the identifier run number is the 0-based
`run_index` plus one, 2-digit formatted; on a successful fetch the capture is
saved, on a failed fetch nothing is. -/
def perform_scrape (extract : String → List TagInfo)
    (codePicks : Nat → Nat × Nat) (clock : Clock) (saltPicks : Nat → Nat)
    (lf : LocalFaults) (rf : RemoteFaults) (fetchResult : Option String)
    (st : PState) (remote : RemoteDB) (url scrape_type : String)
    (run_index : Nat) : Option SaveResult :=
  let prefix_char := if scrape_type = ("primary") then ("P") else ("B")
  let run_number_str := fmt2 (run_index + 1)
  match fetchResult with
  | some html =>
    some (save_scrape_data extract codePicks clock saltPicks lf rf st remote
      url html scrape_type prefix_char run_number_str 1)
  | none => none

/-- Severity levels of the logger (logger.py). -/
inductive LogLevel where
  | debugL | maintenanceL | regularL | warnL | errorL | criticalL
deriving Repr, DecidableEq

/-- The log events setup_schedules can emit, as structured records. -/
inductive SchedLog where
  | invalidUrlError (url : String)
  | scheduleFailedError (url : String) (scrape_type : String) (at_time : String)
  | scheduledMaintenance (url : String) (scrape_type : String) (at_time : String)
      (run_index : Nat)
deriving Repr, DecidableEq

/-- The severity each setup_schedules event is logged at. -/
def SchedLog.level : SchedLog → LogLevel
  | .invalidUrlError _ => LogLevel.errorL
  | .scheduleFailedError _ _ _ => LogLevel.errorL
  | .scheduledMaintenance _ _ _ _ => LogLevel.maintenanceL

/-- One scheduled job: `schedule.every().day.at(t).do(perform_scrape, url=...,
scrape_type=..., run_index=idx)`. -/
structure Job where
  url : String
  scrape_type : String
  run_index : Nat
  at_time : String
deriving Repr, DecidableEq

/-- Whether `schedule.every().day.at(t)` accepts `t`: the configured values
reach it as HH:MM strings, which the schedule library accepts exactly when
well-formed; a malformed value raises, caught by the per-slot except. -/
def validTimeHHMM (t : String) : Bool :=
  t.length = 5 && t.data.getD 2 (' ') = (':') &&
    (t.data.take 2).all Char.isDigit && (t.data.drop 3).all Char.isDigit &&
    ((t.data.take 2).foldl (fun n c => n * 10 + c.toNat - 48) 0) ≤ 23 &&
    ((t.data.drop 3).foldl (fun n c => n * 10 + c.toNat - 48) 0) ≤ 59

/-- The scheme check of scheduler.py line 57: `url.startswith` on either
scheme, expressed over the character sequences. -/
def startsWithHttpScheme (url : String) : Bool :=
  ((("http://").data).isPrefixOf url.data) ||
    ((("https://").data).isPrefixOf url.data)

/-- The per-category slot loop of setup_schedules (scheduler.py lines 61-69
and 71-79).  For the slot at 0-based position idx: when idx is at least 9 the
source calls `warning(...)` — but `warning` is NOT among the names scheduler.py
imports from the logger (line 11), so that call raises NameError, which the
enclosing `except Exception` catches and logs through log_error; either way no
job is created for that slot.  Otherwise the job is scheduled with run_index
equal to idx (an invalid time raises inside `at(t)` and is likewise caught and
error-logged). -/
def scheduleCategory (url scrape_type : String) (times : List String) :
    List Job × List SchedLog :=
  (times.enum.map (fun p =>
    if 9 ≤ p.1 then
      (([] : List Job), [SchedLog.scheduleFailedError url scrape_type p.2])
    else if validTimeHHMM p.2 then
      ([Job.mk url scrape_type p.1 p.2],
        [SchedLog.scheduledMaintenance url scrape_type p.2 p.1])
    else
      (([] : List Job), [SchedLog.scheduleFailedError url scrape_type p.2])
  )).foldr (fun a b => (a.1 ++ b.1, a.2 ++ b.2)) ([], [])

/-- `setup_schedules` (scheduler.py lines 41-85): with no urls nothing is
scheduled; a url without an http/https scheme is skipped with an error; for
every remaining url the primary then the backup slot lists are scheduled. -/
def setup_schedules (urls primary_times backup_times : List String) :
    List Job × List SchedLog :=
  if urls = [] then ([], [])
  else
    (urls.map (fun url =>
      if !(startsWithHttpScheme url) then
        (([] : List Job), [SchedLog.invalidUrlError url])
      else
        let p := scheduleCategory url ("primary") primary_times
        let b := scheduleCategory url ("backup") backup_times
        (p.1 ++ b.1, p.2 ++ b.2)
    )).foldr (fun a b => (a.1 ++ b.1, a.2 ++ b.2)) ([], [])

/-- The manual-prefix alternation of main.py line 118:
`current = 'T' if last == 'M' else 'M'`. -/
def next_manual_prefix_char (last : String) : String :=
  if last = ("M") then ("T") else ("M")

/-- Externally observable steps of one manual scrape, in program order. -/
inductive MAction where
  | persistPrefixChar (value : String)
  | saveCapture (prefix_char run_number_str : String)
deriving Repr, DecidableEq

/-- Outcome of `manual_scrape`: the ordered actions taken and the save
outcome when a save happened. -/
structure ManualScrapeResult where
  actions : List MAction
  saveOutcome : Option SaveResult

/-- `manual_scrape` (main.py lines 100-133) after a successful fetch: read
the persisted LAST_MANUAL_PREFIX, flip it (T after M, M otherwise),
persist the newly used value back through save_config_value (main.py line
122) BEFORE the capture is saved, and save with that prefix and the fixed
the fixed run number 99 (line 124).  A failed fetch performs neither
action. -/
def manual_scrape (extract : String → List TagInfo)
    (codePicks : Nat → Nat × Nat) (clock : Clock) (saltPicks : Nat → Nat)
    (lf : LocalFaults) (rf : RemoteFaults) (fetchResult : Option String)
    (st : PState) (remote : RemoteDB) (url scrape_type : String) :
    ManualScrapeResult :=
  match fetchResult with
  | none => ⟨[], none⟩
  | some html =>
    let last := st.cfg.lastManualPrefixChar
    let current := next_manual_prefix_char last
    let st1 : PState := ⟨{ st.cfg with lastManualPrefixChar := current }, st.conn⟩
    let run_number_str := ("99")
    ⟨[MAction.persistPrefixChar current, MAction.saveCapture current run_number_str],
      some (save_scrape_data extract codePicks clock saltPicks lf rf st1 remote
        url html scrape_type current run_number_str 1)⟩

/-! Concrete objects used by witnesses and counterexamples. -/

/-- A configuration binding one url to the code AB, last manual prefix M. -/
def cfgX : Config := ⟨[(("https://a.example"), ("AB"))], ("M")⟩

/-- The freshly initialized local database. -/
def emptyDB : LocalDB := ⟨[], [], []⟩

/-- A process state with cfgX and an empty connected database. -/
def stX : PState := ⟨cfgX, some emptyDB⟩

/-- A clock whose local reading is four hours behind its UTC reading. -/
def clockX : Clock := ⟨⟨2025, 6, 1, 8, 30, 0⟩, ⟨2025, 6, 1, 12, 30, 0⟩⟩

/-- A constant code-candidate pick stream (every candidate is AA). -/
def picks0 : Nat → Nat × Nat := fun _ => (0, 0)

/-- A constant salt pick stream (salt AAAAAAAA). -/
def salt0 : Nat → Nat := fun _ => 0

/-- A database whose (AB, P) counter has reached 999. -/
def db999 : LocalDB := ⟨[], [], [(((("AB")), ("P")), 999)]⟩

/-- A tag extractor returning two tags, for save tests. -/
def extract2 : String → List TagInfo := fun _ =>
  [⟨("h1"), ("Hi"), ("html > body > h1"), []⟩,
    ⟨("p"), ("x"), ("html > body > p"), []⟩]

/-- Local faults where exactly the insert of tag 0 fails. -/
def lfTag0 : LocalFaults := ⟨false, false, (fun i => decide (i = 0)), false, false⟩

/-- Local faults where tag extraction raises. -/
def lfParse : LocalFaults := ⟨false, true, (fun _ => false), false, false⟩

/-- A configured remote where the main insert errors and every tag insert
fails. -/
def rfFail : RemoteFaults := ⟨true, false, true, fun _ => true⟩

/-- One url for scheduling tests. -/
def urlsX : List String := [("https://a.example")]

/-- Ten well-formed daily slots for one category. -/
def times10X : List String :=
  [("00:00"), ("01:00"), ("02:00"), ("03:00"), ("04:00"), ("05:00"),
    ("06:00"), ("07:00"), ("08:00"), ("09:00")]

/-! Helper lemmas. -/

theorem zfill_length (w : Nat) (s : String) (h : s.length ≤ w) :
    (zfill w s).length = w := by
  simp only [zfill, String.length_append]
  have hm : (String.mk (List.replicate (w - s.length) ('0'))).length
      = w - s.length := by
    show (List.replicate (w - s.length) ('0')).length = w - s.length
    simp
  omega

theorem fmt2_length (n : Nat) (h : n < 100) : (fmt2 n).length = 2 :=
  zfill_length 2 (Nat.repr n) (Nat.repr_length n 2 (by norm_num) (by omega))

theorem fmt3_length (n : Nat) (h : n < 1000) : (fmt3 n).length = 3 :=
  zfill_length 3 (Nat.repr n) (Nat.repr_length n 3 (by norm_num) (by omega))

theorem fmt4_length (n : Nat) (h : n < 10000) : (fmt4 n).length = 4 :=
  zfill_length 4 (Nat.repr n) (Nat.repr_length n 4 (by norm_num) (by omega))

theorem strftimeYmdHMS_length (t : DateTime) (h : t.Valid) :
    (strftimeYmdHMS t).length = 14 := by
  obtain ⟨h1, h2, h3, h4, h5, h6, h7, h8⟩ := h
  simp only [strftimeYmdHMS, String.length_append]
  rw [fmt4_length t.year (by omega), fmt2_length t.month (by omega),
    fmt2_length t.day (by omega), fmt2_length t.hour (by omega),
    fmt2_length t.minute (by omega), fmt2_length t.second (by omega)]

theorem mkSalt_length (saltPicks : Nat → Nat) : (mkSalt saltPicks).length = 8 := by
  show ((List.range 8).map _).length = 8
  simp

theorem codeOfPick_length (p : Nat × Nat) : (codeOfPick p).length = 2 := rfl

@[simp] theorem lookupStr_nil (k : String) : lookupStr [] k = none := rfl

@[simp] theorem lookupStr_cons (k0 v0 : String) (rest : List (String × String))
    (k : String) :
    lookupStr ((k0, v0) :: rest) k =
      if k0 = k then some v0 else lookupStr rest k := rfl

@[simp] theorem lookupSeq_nil (k : String × String) : lookupSeq [] k = none := rfl

@[simp] theorem lookupSeq_cons (k0 : String × String) (v0 : Int)
    (rest : List ((String × String) × Int)) (k : String × String) :
    lookupSeq ((k0, v0) :: rest) k =
      if k0 = k then some v0 else lookupSeq rest k := rfl

@[simp] theorem setSeq_nil (k : String × String) (v : Int) :
    setSeq [] k v = [(k, v)] := rfl

@[simp] theorem setSeq_cons (k0 : String × String) (v0 : Int)
    (rest : List ((String × String) × Int)) (k : String × String) (v : Int) :
    setSeq ((k0, v0) :: rest) k v =
      if k0 = k then (k, v) :: rest else (k0, v0) :: setSeq rest k v := rfl

theorem get_next_sequence_some (db : LocalDB) (uc pc : String) :
    get_next_sequence (some db) uc pc =
      match lookupSeq db.sequential_counters (uc, pc) with
      | none =>
        (some 1,
          some { db with
            sequential_counters :=
              db.sequential_counters ++ [((uc, pc), 1)] })
      | some v =>
        (some (v + 1),
          some { db with
            sequential_counters :=
              setSeq db.sequential_counters (uc, pc) (v + 1) }) := rfl

theorem lookupStr_mem {l : List (String × String)} {k v : String}
    (h : lookupStr l k = some v) : (k, v) ∈ l := by
  induction l with
  | nil => simp at h
  | cons hd tl ih =>
    obtain ⟨k0, v0⟩ := hd
    by_cases hk : k0 = k
    · rw [lookupStr_cons, if_pos hk] at h
      cases h
      subst hk
      exact List.mem_cons_self _ _
    · rw [lookupStr_cons, if_neg hk] at h
      exact List.mem_cons_of_mem _ (ih h)

theorem lookupStr_append_self {l : List (String × String)} {k v : String}
    (h : lookupStr l k = none) : lookupStr (l ++ [(k, v)]) k = some v := by
  induction l with
  | nil => simp
  | cons hd tl ih =>
    obtain ⟨k0, v0⟩ := hd
    by_cases hk : k0 = k
    · simp [hk] at h
    · rw [lookupStr_cons, if_neg hk] at h
      rw [List.cons_append, lookupStr_cons, if_neg hk]
      exact ih h

theorem genNewCode_spec {picks : Nat → Nat × Nat} {existing : List String}
    {c : String} (h : genNewCode picks existing = some c) :
    existing.contains c = false ∧ c.length = 2 := by
  unfold genNewCode at h
  constructor
  · have := List.find?_some h
    simpa using this
  · have hmem := List.mem_of_find?_eq_some h
    rw [List.mem_map] at hmem
    obtain ⟨i, _, hi⟩ := hmem
    rw [← hi]
    exact codeOfPick_length _

theorem get_or_assign_code_length {picks : Nat → Nat × Nat} {cfg : Config}
    {url code : String} {cfg1 : Config}
    (hcodes : ∀ p ∈ cfg.urlCodes, (p.2).length = 2)
    (h : get_or_assign_url_code picks cfg url = (some code, cfg1)) :
    code.length = 2 := by
  unfold get_or_assign_url_code at h
  by_cases hu : url = ("")
  · simp [hu] at h
  · rw [if_neg hu] at h
    cases hl : lookupStr cfg.urlCodes url with
    | some c0 =>
      rw [hl] at h
      cases h
      exact hcodes _ (lookupStr_mem hl)
    | none =>
      rw [hl] at h
      cases hg : genNewCode picks (cfg.urlCodes.map Prod.snd) with
      | none => rw [hg] at h; cases h
      | some c1 =>
        rw [hg] at h
        cases h
        exact (genNewCode_spec hg).2

theorem get_or_assign_keeps_manual (picks : Nat → Nat × Nat) (cfg : Config)
    (url : String) :
    (get_or_assign_url_code picks cfg url).2.lastManualPrefixChar =
      cfg.lastManualPrefixChar := by
  unfold get_or_assign_url_code
  by_cases hu : url = ("")
  · simp [hu]
  · rw [if_neg hu]
    cases hl : lookupStr cfg.urlCodes url with
    | some c0 => rfl
    | none =>
      cases hg : genNewCode picks (cfg.urlCodes.map Prod.snd) with
      | none => rfl
      | some c1 => rfl

theorem lookupSeq_setSeq_self (l : List ((String × String) × Int))
    (k : String × String) (v : Int) : lookupSeq (setSeq l k v) k = some v := by
  induction l with
  | nil => simp
  | cons hd tl ih =>
    obtain ⟨k0, v0⟩ := hd
    by_cases hk : k0 = k
    · simp [hk]
    · rw [setSeq_cons, if_neg hk, lookupSeq_cons, if_neg hk]
      exact ih

theorem lookupSeq_append_self {l : List ((String × String) × Int)}
    {k : String × String} (v : Int) (h : lookupSeq l k = none) :
    lookupSeq (l ++ [(k, v)]) k = some v := by
  induction l with
  | nil => simp
  | cons hd tl ih =>
    obtain ⟨k0, v0⟩ := hd
    by_cases hk : k0 = k
    · simp [hk] at h
    · rw [lookupSeq_cons, if_neg hk] at h
      rw [List.cons_append, lookupSeq_cons, if_neg hk]
      exact ih h

theorem get_next_sequence_frame {db db' : LocalDB} {uc pc : String} {v : Int}
    (h : get_next_sequence (some db) uc pc = (some v, some db')) :
    db'.scraped_pages = db.scraped_pages ∧
      db'.html_tag_data = db.html_tag_data := by
  rw [get_next_sequence_some] at h
  cases hl : lookupSeq db.sequential_counters (uc, pc) with
  | none => rw [hl] at h; cases h; exact ⟨rfl, rfl⟩
  | some w => rw [hl] at h; cases h; exact ⟨rfl, rfl⟩

/-- C2 (amended): for every key, the first successful call creates the row
and returns 1, and every subsequent successful call returns exactly the
stored value plus 1 — strictly increasing by 1, no gaps, no repeats: the
result is recorded and the immediately following call returns its successor.
The counter itself never saturates; the fixed maximum 999 applies only to
the identifier's displayed sequence field. -/
theorem get_next_sequence_insert {db : LocalDB} {uc pc : String}
    (h : lookupSeq db.sequential_counters (uc, pc) = none) :
    get_next_sequence (some db) uc pc =
      (some 1, some { db with
        sequential_counters := db.sequential_counters ++ [((uc, pc), 1)] }) := by
  rw [get_next_sequence_some, h]

theorem get_next_sequence_update {db : LocalDB} {uc pc : String} {w : Int}
    (h : lookupSeq db.sequential_counters (uc, pc) = some w) :
    get_next_sequence (some db) uc pc =
      (some (w + 1), some { db with
        sequential_counters := setSeq db.sequential_counters (uc, pc) (w + 1) }) := by
  rw [get_next_sequence_some, h]

theorem get_next_sequence_strict_increment (db : LocalDB) (uc pc : String)
    (v : Int) (db' : LocalDB)
    (h : get_next_sequence (some db) uc pc = (some v, some db')) :
    (lookupSeq db.sequential_counters (uc, pc) = none → v = 1) ∧
    (∀ w, lookupSeq db.sequential_counters (uc, pc) = some w → v = w + 1) ∧
    lookupSeq db'.sequential_counters (uc, pc) = some v ∧
    (get_next_sequence (some db') uc pc).1 = some (v + 1) := by
  cases hl : lookupSeq db.sequential_counters (uc, pc) with
  | none =>
    rw [get_next_sequence_insert hl] at h
    injection h with h1 h2
    injection h1 with h1
    injection h2 with h2
    subst h1
    subst h2
    have hstore : lookupSeq (db.sequential_counters ++ [((uc, pc), 1)]) (uc, pc)
        = some 1 := lookupSeq_append_self 1 hl
    refine ⟨fun _ => rfl, ?_, hstore, ?_⟩
    · intro w hw
      simp at hw
    · rw [get_next_sequence_update hstore]
  | some w =>
    rw [get_next_sequence_update hl] at h
    injection h with h1 h2
    injection h1 with h1
    injection h2 with h2
    subst h1
    subst h2
    have hstore : lookupSeq (setSeq db.sequential_counters (uc, pc) (w + 1))
        (uc, pc) = some (w + 1) := lookupSeq_setSeq_self _ _ _
    refine ⟨?_, ?_, hstore, ?_⟩
    · intro hn
      simp at hn
    · intro w0 hw0
      injection hw0 with hw0
      rw [hw0]
    · rw [get_next_sequence_update hstore]

/-- C2 witness: on a database whose (AB, P) counter holds 4, the call
returns 5, records 5, and the following call returns 6. -/
theorem get_next_sequence_strict_increment_witness :
    (lookupSeq ([(((("AB")), ("P")), 4)] : List ((String × String) × Int))
        ((("AB")), ("P")) = none → (5 : Int) = 1) ∧
    (∀ w, lookupSeq ([(((("AB")), ("P")), 4)] : List ((String × String) × Int))
        ((("AB")), ("P")) = some w → (5 : Int) = w + 1) ∧
    lookupSeq (LocalDB.sequential_counters ⟨[], [], [(((("AB")), ("P")), 5)]⟩)
        ((("AB")), ("P")) = some 5 ∧
    (get_next_sequence (some ⟨[], [], [(((("AB")), ("P")), 5)]⟩) ("AB") ("P")).1
        = some 6 :=
  get_next_sequence_strict_increment ⟨[], [], [(((("AB")), ("P")), 4)]⟩
    ("AB") ("P") 5 ⟨[], [], [(((("AB")), ("P")), 5)]⟩ (by decide)

/-- C2 counterexample: the counter does not saturate at the documented fixed
maximum 999 — with the (AB, P) counter at 999, the next call returns 1000,
not 999. -/
theorem get_next_sequence_no_saturation_counterexample :
    (get_next_sequence (some db999) ("AB") ("P")).1 = some 1000 ∧
    (get_next_sequence (some db999) ("AB") ("P")).1 ≠ some 999 := by
  constructor
  · decide
  · decide

/-- C6: get_or_assign_url_code fails on the empty url with no state change;
a successful call is idempotent — repeating it (with any pick stream) returns
the same code and leaves the state unchanged; and a code assigned to a url
not previously bound is never a code already in use for a different url, and
is two letters long. -/
theorem get_or_assign_url_code_idempotent :
    (∀ (picks : Nat → Nat × Nat) (cfg : Config),
      get_or_assign_url_code picks cfg ("") = (none, cfg)) ∧
    (∀ (picks picks2 : Nat → Nat × Nat) (cfg : Config) (url code : String)
      (cfg1 : Config),
      get_or_assign_url_code picks cfg url = (some code, cfg1) →
      get_or_assign_url_code picks2 cfg1 url = (some code, cfg1)) ∧
    (∀ (picks : Nat → Nat × Nat) (cfg : Config) (url code : String)
      (cfg1 : Config),
      lookupStr cfg.urlCodes url = none →
      get_or_assign_url_code picks cfg url = (some code, cfg1) →
      (cfg.urlCodes.map Prod.snd).contains code = false ∧ code.length = 2) := by
  refine ⟨fun picks cfg => by simp [get_or_assign_url_code], ?_, ?_⟩
  · intro picks picks2 cfg url code cfg1 h
    unfold get_or_assign_url_code at h ⊢
    by_cases hu : url = ("")
    · rw [if_pos hu] at h; cases h
    · rw [if_neg hu] at h ⊢
      cases hl : lookupStr cfg.urlCodes url with
      | some c0 =>
        rw [hl] at h
        obtain ⟨hc, hcfg⟩ := Prod.mk.injEq .. ▸ h
        cases hc
        cases hcfg
        rw [hl]
      | none =>
        rw [hl] at h
        cases hg : genNewCode picks (cfg.urlCodes.map Prod.snd) with
        | none => rw [hg] at h; cases h
        | some c1 =>
          rw [hg] at h
          obtain ⟨hc, hcfg⟩ := Prod.mk.injEq .. ▸ h
          cases hc
          cases hcfg
          rw [lookupStr_append_self hl]
  · intro picks cfg url code cfg1 hl h
    unfold get_or_assign_url_code at h
    by_cases hu : url = ("")
    · rw [if_pos hu] at h; cases h
    · rw [if_neg hu, hl] at h
      cases hg : genNewCode picks (cfg.urlCodes.map Prod.snd) with
      | none => rw [hg] at h; cases h
      | some c1 =>
        rw [hg] at h
        obtain ⟨hc, _⟩ := Prod.mk.injEq .. ▸ h
        cases hc
        exact genNewCode_spec hg

/-- C6 witness: resolving the already-bound url returns its code AB with the
configuration untouched, twice in a row; resolving a new url yields the
fresh two-letter code AA, unused by any other url. -/
theorem get_or_assign_url_code_idempotent_witness :
    get_or_assign_url_code picks0 cfgX ("") = (none, cfgX) ∧
    get_or_assign_url_code picks0 cfgX ("https://a.example") =
      (some ("AB"), cfgX) ∧
    ((cfgX.urlCodes.map Prod.snd).contains ("AA") = false ∧
      ("AA" : String).length = 2) :=
  ⟨get_or_assign_url_code_idempotent.1 picks0 cfgX,
    get_or_assign_url_code_idempotent.2.1 picks0 picks0 cfgX
      ("https://a.example") ("AB") cfgX (by decide),
    get_or_assign_url_code_idempotent.2.2 picks0 cfgX ("https://b.example")
      ("AA") ⟨cfgX.urlCodes ++ [(("https://b.example"), ("AA"))],
        cfgX.lastManualPrefixChar⟩ (by decide) (by decide)⟩

theorem generate_custom_uuid_success_shape
    (codePicks : Nat → Nat × Nat) (clock : Clock) (saltPicks : Nat → Nat)
    (prefix_char run_number_str url : String)
    (seqFn : PState → String → String → Option Int × PState)
    (st : PState) (code : String) (cfg1 : Config) (n : Int) (st2 : PState)
    (hpc : prefix_char ∈ valid_prefixes)
    (hrun : isTwoDigit run_number_str = true)
    (hurl : url ≠ (""))
    (hres : get_or_assign_url_code codePicks st.cfg url = (some code, cfg1))
    (hseq : seqFn ⟨cfg1, st.conn⟩ code prefix_char = (some n, st2))
    (hn : 0 ≤ n) :
    generate_custom_uuid codePicks clock saltPicks prefix_char run_number_str
        url seqFn st =
      ⟨some (prefix_char ++ run_number_str ++ code ++ strftimeYmdHMS clock.localNow
          ++ mkSalt saltPicks ++ fmt3 (if 999 < n then (999 : Int) else n).toNat),
        st2, decide (999 < n)⟩ := by
  have hn0 : ¬ (n < 0) := by omega
  simp only [generate_custom_uuid, if_pos hpc, hrun, if_true, if_neg hurl, hres,
    hseq, if_neg hn0]

/-- C3: for every valid input triple — allowed category character, 2-digit
run slot, non-empty url — and every successful code resolution and sequence
lookup, generate returns a 30-character identifier laid out as
category char (1) ++ run slot (2) ++ source code (2) ++ timestamp (14) ++
salt (8) ++ 3-digit sequence. -/
theorem generate_custom_uuid_layout
    (codePicks : Nat → Nat × Nat) (clock : Clock) (saltPicks : Nat → Nat)
    (prefix_char run_number_str url : String)
    (seqFn : PState → String → String → Option Int × PState)
    (st : PState) (code : String) (cfg1 : Config) (n : Int) (st2 : PState)
    (hpc : prefix_char ∈ valid_prefixes)
    (hrun : isTwoDigit run_number_str = true)
    (hurl : url ≠ (""))
    (hres : get_or_assign_url_code codePicks st.cfg url = (some code, cfg1))
    (hseq : seqFn ⟨cfg1, st.conn⟩ code prefix_char = (some n, st2))
    (hn : 0 ≤ n)
    (hclock : clock.localNow.Valid)
    (hcodes : ∀ p ∈ st.cfg.urlCodes, (p.2).length = 2) :
    ∃ s : String,
      (generate_custom_uuid codePicks clock saltPicks prefix_char
          run_number_str url seqFn st).uuid = some s ∧
      s.length = 30 ∧
      ∃ seq3 : String,
        s = prefix_char ++ run_number_str ++ code ++
          strftimeYmdHMS clock.localNow ++ mkSalt saltPicks ++ seq3 ∧
        prefix_char.length = 1 ∧ run_number_str.length = 2 ∧
        code.length = 2 ∧ (strftimeYmdHMS clock.localNow).length = 14 ∧
        (mkSalt saltPicks).length = 8 ∧ seq3.length = 3 := by
  have hshape := generate_custom_uuid_success_shape codePicks clock saltPicks
    prefix_char run_number_str url seqFn st code cfg1 n st2 hpc hrun hurl hres
    hseq hn
  have hcode2 : code.length = 2 := get_or_assign_code_length hcodes hres
  have hp1 : prefix_char.length = 1 := by
    simp only [valid_prefixes, List.mem_cons, List.not_mem_nil, or_false] at hpc
    rcases hpc with h | h | h | h <;> rw [h] <;> rfl
  have hr2 : run_number_str.length = 2 := by
    unfold isTwoDigit at hrun
    rw [Bool.and_eq_true] at hrun
    exact of_decide_eq_true hrun.1
  have hts : (strftimeYmdHMS clock.localNow).length = 14 :=
    strftimeYmdHMS_length _ hclock
  have hsalt : (mkSalt saltPicks).length = 8 := mkSalt_length saltPicks
  have hseq3 : (fmt3 (if 999 < n then (999 : Int) else n).toNat).length = 3 := by
    apply fmt3_length
    split <;> omega
  refine ⟨_, by rw [hshape], ?_, _, rfl, hp1, hr2, hcode2, hts, hsalt, hseq3⟩
  simp only [String.length_append, hp1, hr2, hcode2, hts, hsalt, hseq3]

/-- C3 witness: with the bound url and a sequence source returning 5, the
generated identifier is a concrete 30-character string with the stated
layout. -/
theorem generate_custom_uuid_layout_witness :
    ∃ s : String,
      (generate_custom_uuid picks0 clockX salt0 ("P") ("01")
          ("https://a.example") (fun s0 _ _ => (some 5, s0)) stX).uuid =
        some s ∧
      s.length = 30 ∧
      ∃ seq3 : String,
        s = ("P") ++ ("01") ++ ("AB") ++ strftimeYmdHMS clockX.localNow ++
          mkSalt salt0 ++ seq3 ∧
        ("P" : String).length = 1 ∧ ("01" : String).length = 2 ∧
        ("AB" : String).length = 2 ∧
        (strftimeYmdHMS clockX.localNow).length = 14 ∧
        (mkSalt salt0).length = 8 ∧ seq3.length = 3 :=
  generate_custom_uuid_layout picks0 clockX salt0 ("P") ("01")
    ("https://a.example") (fun s0 _ _ => (some 5, s0)) stX ("AB") cfgX 5
    ⟨cfgX, stX.conn⟩ (by decide) (by decide) (by decide) (by decide) rfl
    (by decide) (by decide) (by decide)

/-- C5: when the sequence source hands generate an integer above 999, the
identifier is still produced, its 3-character sequence field is the clamped
string 999, and the warning is emitted; get_next_sequence itself returns the
true unclamped successor of whatever the stored counter holds. -/
theorem generate_custom_uuid_seq_clamp
    (codePicks : Nat → Nat × Nat) (clock : Clock) (saltPicks : Nat → Nat)
    (prefix_char run_number_str url : String)
    (seqFn : PState → String → String → Option Int × PState)
    (st : PState) (code : String) (cfg1 : Config) (n : Int) (st2 : PState)
    (hpc : prefix_char ∈ valid_prefixes)
    (hrun : isTwoDigit run_number_str = true)
    (hurl : url ≠ (""))
    (hres : get_or_assign_url_code codePicks st.cfg url = (some code, cfg1))
    (hseq : seqFn ⟨cfg1, st.conn⟩ code prefix_char = (some n, st2))
    (hn9 : 999 < n) :
    generate_custom_uuid codePicks clock saltPicks prefix_char run_number_str
        url seqFn st =
      ⟨some (prefix_char ++ run_number_str ++ code ++
          strftimeYmdHMS clock.localNow ++ mkSalt saltPicks ++ ("999")),
        st2, true⟩ ∧
    (∀ (db : LocalDB) (uc pc : String) (w : Int),
      lookupSeq db.sequential_counters (uc, pc) = some w →
      (get_next_sequence (some db) uc pc).1 = some (w + 1)) := by
  constructor
  · have hshape := generate_custom_uuid_success_shape codePicks clock saltPicks
      prefix_char run_number_str url seqFn st code cfg1 n st2 hpc hrun hurl
      hres hseq (by omega)
    rw [hshape, if_pos hn9,
      show fmt3 ((999 : Int).toNat) = ("999") from by decide,
      decide_eq_true hn9]
  · intro db uc pc w hw
    rw [get_next_sequence_update hw]

/-- C5 witness: a sequence source returning 1500 yields an identifier ending
in 999 with the warning flag set, while get_next_sequence on a counter at
1500 returns 1501. -/
theorem generate_custom_uuid_seq_clamp_witness :
    generate_custom_uuid picks0 clockX salt0 ("P") ("01")
        ("https://a.example") (fun s0 _ _ => (some 1500, s0)) stX =
      ⟨some (("P") ++ ("01") ++ ("AB") ++ strftimeYmdHMS clockX.localNow ++
          mkSalt salt0 ++ ("999")), ⟨cfgX, stX.conn⟩, true⟩ ∧
    (∀ (db : LocalDB) (uc pc : String) (w : Int),
      lookupSeq db.sequential_counters (uc, pc) = some w →
      (get_next_sequence (some db) uc pc).1 = some (w + 1)) :=
  generate_custom_uuid_seq_clamp picks0 clockX salt0 ("P") ("01")
    ("https://a.example") (fun s0 _ _ => (some 1500, s0)) stX ("AB") cfgX 1500
    ⟨cfgX, stX.conn⟩ (by decide) (by decide) (by decide) (by decide) rfl
    (by decide)

/-- C8 (amended): the 14-character timestamp component of every successful
identifier is the current LOCAL system time (datetime.now() with no timezone
argument) formatted YYYYMMDDHHMMSS; it coincides with UTC only when the
system timezone is UTC. -/
theorem generate_timestamp_local_time
    (codePicks : Nat → Nat × Nat) (clock : Clock) (saltPicks : Nat → Nat)
    (prefix_char run_number_str url : String)
    (seqFn : PState → String → String → Option Int × PState)
    (st : PState) (code : String) (cfg1 : Config) (n : Int) (st2 : PState)
    (hpc : prefix_char ∈ valid_prefixes)
    (hrun : isTwoDigit run_number_str = true)
    (hurl : url ≠ (""))
    (hres : get_or_assign_url_code codePicks st.cfg url = (some code, cfg1))
    (hseq : seqFn ⟨cfg1, st.conn⟩ code prefix_char = (some n, st2))
    (hn : 0 ≤ n) :
    ∃ seq3 : String,
      (generate_custom_uuid codePicks clock saltPicks prefix_char
          run_number_str url seqFn st).uuid =
        some (prefix_char ++ run_number_str ++ code ++
          strftimeYmdHMS clock.localNow ++ mkSalt saltPicks ++ seq3) := by
  refine ⟨fmt3 (if 999 < n then (999 : Int) else n).toNat, ?_⟩
  rw [generate_custom_uuid_success_shape codePicks clock saltPicks prefix_char
    run_number_str url seqFn st code cfg1 n st2 hpc hrun hurl hres hseq hn]

/-- C8 witness: at the concrete clock the identifier embeds the local-time
formatting 20250601083000. -/
theorem generate_timestamp_local_time_witness :
    ∃ seq3 : String,
      (generate_custom_uuid picks0 clockX salt0 ("P") ("01")
          ("https://a.example") (fun s0 _ _ => (some 5, s0)) stX).uuid =
        some (("P") ++ ("01") ++ ("AB") ++ strftimeYmdHMS clockX.localNow ++
          mkSalt salt0 ++ seq3) :=
  generate_timestamp_local_time picks0 clockX salt0 ("P") ("01")
    ("https://a.example") (fun s0 _ _ => (some 5, s0)) stX ("AB") cfgX 5
    ⟨cfgX, stX.conn⟩ (by decide) (by decide) (by decide) (by decide) rfl
    (by decide)

theorem get_next_sequence_conn_frame (conn : Option LocalDB) (uc pc : String) :
    connCaptures (get_next_sequence conn uc pc).2 = connCaptures conn ∧
    connTags (get_next_sequence conn uc pc).2 = connTags conn := by
  cases conn with
  | none => exact ⟨rfl, rfl⟩
  | some db =>
    cases hl : lookupSeq db.sequential_counters (uc, pc) with
    | none => rw [get_next_sequence_insert hl]; exact ⟨rfl, rfl⟩
    | some w => rw [get_next_sequence_update hl]; exact ⟨rfl, rfl⟩

theorem generate_dbNextSeq_frame (codePicks : Nat → Nat × Nat) (clock : Clock)
    (saltPicks : Nat → Nat) (prefix_char run_number_str url : String)
    (st : PState) :
    connCaptures (generate_custom_uuid codePicks clock saltPicks prefix_char
        run_number_str url dbNextSeq st).state.conn = connCaptures st.conn ∧
    connTags (generate_custom_uuid codePicks clock saltPicks prefix_char
        run_number_str url dbNextSeq st).state.conn = connTags st.conn ∧
    (generate_custom_uuid codePicks clock saltPicks prefix_char
        run_number_str url dbNextSeq st).state.cfg.lastManualPrefixChar =
      st.cfg.lastManualPrefixChar := by
  unfold generate_custom_uuid
  split
  · split
    · split
      · exact ⟨rfl, rfl, rfl⟩
      · split
        · rename_i cfg1 heq
          refine ⟨rfl, rfl, ?_⟩
          have hman := get_or_assign_keeps_manual codePicks st.cfg url
          rw [heq] at hman
          exact hman
        · rename_i url_code cfg1 heq
          have hman : cfg1.lastManualPrefixChar =
              st.cfg.lastManualPrefixChar := by
            have h0 := get_or_assign_keeps_manual codePicks st.cfg url
            rw [heq] at h0
            exact h0
          have hfr := get_next_sequence_conn_frame st.conn url_code prefix_char
          split
          · rename_i st2 heq2
            simp only [dbNextSeq] at heq2
            injection heq2 with h1 h2
            subst h2
            exact ⟨hfr.1, hfr.2, hman⟩
          · rename_i n st2 heq2
            simp only [dbNextSeq] at heq2
            injection heq2 with h1 h2
            subst h2
            split
            · exact ⟨hfr.1, hfr.2, hman⟩
            · exact ⟨hfr.1, hfr.2, hman⟩
    · exact ⟨rfl, rfl, rfl⟩
  · exact ⟨rfl, rfl, rfl⟩

/-- C8 counterexample: with the system timezone four hours west of UTC, the
identifier generated through the real sequence store carries the local-time
stamp 20250601083000, which differs from the UTC formatting 20250601123000 —
so the timestamp component is not the current UTC time. -/
theorem generate_timestamp_not_utc_counterexample :
    (generate_custom_uuid picks0 clockX salt0 ("P") ("01")
        ("https://a.example") dbNextSeq stX).uuid =
      some (("P") ++ ("01") ++ ("AB") ++ strftimeYmdHMS clockX.localNow ++
        ("AAAAAAAA") ++ ("001")) ∧
    strftimeYmdHMS clockX.localNow ≠ strftimeYmdHMS clockX.utcNow := by
  constructor
  · decide
  · decide

theorem local_save_phase_noncaught_fails
    (extract : String → List TagInfo) (lf : LocalFaults) (st1 : PState)
    (capture_id : String) (row : CaptureRow) (html_content : String)
    (hf : lf.mainInsertFault = true ∨ lf.parseFault = true ∨
      lf.commitFault = true) :
    (local_save_phase extract lf st1 capture_id row html_content).1 = false ∧
    (local_save_phase extract lf st1 capture_id row html_content).2.1 = st1 := by
  unfold local_save_phase
  split
  · exact ⟨rfl, rfl⟩
  · rename_i db heq
    split
    · exact ⟨rfl, rfl⟩
    · rename_i hmain
      split
      · exact ⟨rfl, rfl⟩
      · rename_i hparse
        split
        · exact ⟨rfl, rfl⟩
        · rename_i hcommit
          exfalso
          rcases hf with h | h | h
          · apply hmain
            rw [h]
            simp
          · exact hparse h
          · exact hcommit h

/-- C1 (amended): every failure in the local transaction OTHER than an
individual tag-row insert failure — a failing main capture insert, a failing
tag extraction, or a failing commit — rolls the transaction back entirely:
save returns failure and the set of persisted capture rows and tag rows is
exactly what it was before the call.  (An individual tag-row insert failure
is caught and skipped; the counterexample shows the transaction then still
commits.) -/
theorem save_noncaught_local_failure_rolls_back
    (extract : String → List TagInfo) (codePicks : Nat → Nat × Nat)
    (clock : Clock) (saltPicks : Nat → Nat) (lf : LocalFaults)
    (rf : RemoteFaults) (st : PState) (remote : RemoteDB)
    (url html_content scrape_type prefix_char run_number_str : String)
    (version : Nat)
    (hf : lf.mainInsertFault = true ∨ lf.parseFault = true ∨
      lf.commitFault = true) :
    (save_scrape_data extract codePicks clock saltPicks lf rf st remote url
        html_content scrape_type prefix_char run_number_str version).result =
      none ∧
    connCaptures (save_scrape_data extract codePicks clock saltPicks lf rf st
        remote url html_content scrape_type prefix_char run_number_str
        version).state.conn = connCaptures st.conn ∧
    connTags (save_scrape_data extract codePicks clock saltPicks lf rf st
        remote url html_content scrape_type prefix_char run_number_str
        version).state.conn = connTags st.conn := by
  have hfr := generate_dbNextSeq_frame codePicks clock saltPicks prefix_char
    run_number_str url st
  unfold save_scrape_data
  split
  · exact ⟨rfl, rfl, rfl⟩
  · rename_i hhtml
    split
    · rename_i st1 w heq
      rw [heq] at hfr
      exact ⟨rfl, hfr.1, hfr.2.1⟩
    · rename_i cid st1 w heq
      rw [heq] at hfr
      have hl := local_save_phase_noncaught_fails extract lf st1 cid
        ⟨cid, url, isoUtc clock.utcNow, scrape_type, html_content,
          identicalFlag lf st1.conn url html_content, version⟩ html_content hf
      simp only [hl.1, if_false, Bool.false_eq_true]
      rw [hl.2]
      exact ⟨trivial, hfr.1, hfr.2.1⟩

/-- C1 witness: with tag extraction raising, save fails and the database
keeps exactly its previous capture and tag rows. -/
theorem save_noncaught_local_failure_rolls_back_witness :
    (save_scrape_data extract2 picks0 clockX salt0 lfParse remoteOff stX
        ⟨[], []⟩ ("https://a.example") ("<html>x") ("primary") ("P") ("01")
        1).result = none ∧
    connCaptures (save_scrape_data extract2 picks0 clockX salt0 lfParse
        remoteOff stX ⟨[], []⟩ ("https://a.example") ("<html>x") ("primary")
        ("P") ("01") 1).state.conn = connCaptures stX.conn ∧
    connTags (save_scrape_data extract2 picks0 clockX salt0 lfParse remoteOff
        stX ⟨[], []⟩ ("https://a.example") ("<html>x") ("primary") ("P")
        ("01") 1).state.conn = connTags stX.conn :=
  save_noncaught_local_failure_rolls_back extract2 picks0 clockX salt0 lfParse
    remoteOff stX ⟨[], []⟩ ("https://a.example") ("<html>x") ("primary")
    ("P") ("01") 1 (Or.inr (Or.inl rfl))

/-- C1 counterexample: with only the insert of the first extracted tag
failing, the local transaction is NOT rolled back — save succeeds, returning
the generated identifier, and one capture row plus the surviving tag row are
persisted (two tags were extracted, one row was dropped). -/
theorem save_tag_failure_commits_counterexample :
    (save_scrape_data extract2 picks0 clockX salt0 lfTag0 remoteOff stX
        ⟨[], []⟩ ("https://a.example") ("<html>x") ("primary") ("P") ("01")
        1).result = some ("P01AB20250601083000AAAAAAAA001") ∧
    (connCaptures (save_scrape_data extract2 picks0 clockX salt0 lfTag0
        remoteOff stX ⟨[], []⟩ ("https://a.example") ("<html>x") ("primary")
        ("P") ("01") 1).state.conn).length = 1 ∧
    (connTags (save_scrape_data extract2 picks0 clockX salt0 lfTag0 remoteOff
        stX ⟨[], []⟩ ("https://a.example") ("<html>x") ("primary") ("P")
        ("01") 1).state.conn).length = 1 ∧
    (extract2 ("<html>x")).length = 2 := by
  decide

/-- C4: the returned value and the entire local state of save_scrape_data do
not depend on the remote configuration or on any remote fault — remote
failures never roll back the local commit and never change the returned
identifier — and the remote mirror is attempted only when save returns a
generated identifier, that is, only after local success. -/
theorem save_remote_isolation
    (extract : String → List TagInfo) (codePicks : Nat → Nat × Nat)
    (clock : Clock) (saltPicks : Nat → Nat) (lf : LocalFaults)
    (rf rf2 : RemoteFaults) (st : PState) (remote : RemoteDB)
    (url html_content scrape_type prefix_char run_number_str : String)
    (version : Nat) :
    (save_scrape_data extract codePicks clock saltPicks lf rf st remote url
        html_content scrape_type prefix_char run_number_str version).result =
      (save_scrape_data extract codePicks clock saltPicks lf rf2 st remote url
        html_content scrape_type prefix_char run_number_str version).result ∧
    (save_scrape_data extract codePicks clock saltPicks lf rf st remote url
        html_content scrape_type prefix_char run_number_str version).state =
      (save_scrape_data extract codePicks clock saltPicks lf rf2 st remote url
        html_content scrape_type prefix_char run_number_str version).state ∧
    ((save_scrape_data extract codePicks clock saltPicks lf rf st remote url
        html_content scrape_type prefix_char run_number_str
        version).remoteAttempted = true →
      (save_scrape_data extract codePicks clock saltPicks lf rf st remote url
        html_content scrape_type prefix_char run_number_str version).result ≠
        none) := by
  unfold save_scrape_data
  split
  · exact ⟨rfl, rfl, by simp⟩
  · rename_i hhtml
    split
    · exact ⟨rfl, rfl, by simp⟩
    · rename_i cid st1 w heq
      rcases Bool.eq_false_or_eq_true (local_save_phase extract lf st1 cid
          ⟨cid, url, isoUtc clock.utcNow, scrape_type, html_content,
            identicalFlag lf st1.conn url html_content, version⟩
          html_content).1 with hlp | hlp <;>
        by_cases h1 : rf.clientConfigured = true <;>
        by_cases h2 : rf2.clientConfigured = true <;>
        simp [hlp, h1, h2]

/-- C4 witness: a remote whose main insert errors and whose every tag insert
fails produces the same returned value and the same local state as a run
with the remote disabled, and its attempted mirror implies a returned
identifier. -/
theorem save_remote_isolation_witness :
    (save_scrape_data extract2 picks0 clockX salt0 noLocalFaults rfFail stX
        ⟨[], []⟩ ("https://a.example") ("<html>x") ("primary") ("P") ("01")
        1).result =
      (save_scrape_data extract2 picks0 clockX salt0 noLocalFaults remoteOff
        stX ⟨[], []⟩ ("https://a.example") ("<html>x") ("primary") ("P")
        ("01") 1).result ∧
    (save_scrape_data extract2 picks0 clockX salt0 noLocalFaults rfFail stX
        ⟨[], []⟩ ("https://a.example") ("<html>x") ("primary") ("P") ("01")
        1).state =
      (save_scrape_data extract2 picks0 clockX salt0 noLocalFaults remoteOff
        stX ⟨[], []⟩ ("https://a.example") ("<html>x") ("primary") ("P")
        ("01") 1).state ∧
    ((save_scrape_data extract2 picks0 clockX salt0 noLocalFaults rfFail stX
        ⟨[], []⟩ ("https://a.example") ("<html>x") ("primary") ("P") ("01")
        1).remoteAttempted = true →
      (save_scrape_data extract2 picks0 clockX salt0 noLocalFaults rfFail stX
        ⟨[], []⟩ ("https://a.example") ("<html>x") ("primary") ("P") ("01")
        1).result ≠ none) :=
  save_remote_isolation extract2 picks0 clockX salt0 noLocalFaults rfFail
    remoteOff stX ⟨[], []⟩ ("https://a.example") ("<html>x") ("primary")
    ("P") ("01") 1

theorem generate_uuid_some_shape (codePicks : Nat → Nat × Nat) (clock : Clock)
    (saltPicks : Nat → Nat) (prefix_char run_number_str url : String)
    (seqFn : PState → String → String → Option Int × PState) (st : PState)
    (s : String)
    (h : (generate_custom_uuid codePicks clock saltPicks prefix_char
        run_number_str url seqFn st).uuid = some s) :
    ∃ t : List Char, s.data = prefix_char.data ++ run_number_str.data ++ t := by
  unfold generate_custom_uuid at h
  split at h
  · split at h
    · split at h
      · cases h
      · split at h
        · cases h
        · rename_i url_code cfg1 heq
          split at h
          · cases h
          · rename_i n st2 heq2
            split at h
            · cases h
            · injection h with h
              refine ⟨(url_code ++ strftimeYmdHMS clock.localNow ++
                mkSalt saltPicks ++
                fmt3 (if 999 < n then (999 : Int) else n).toNat).data, ?_⟩
              rw [← h]
              simp [String.data_append, List.append_assoc]
    · cases h
  · cases h

theorem save_result_some_from_generate
    (extract : String → List TagInfo) (codePicks : Nat → Nat × Nat)
    (clock : Clock) (saltPicks : Nat → Nat) (lf : LocalFaults)
    (rf : RemoteFaults) (st : PState) (remote : RemoteDB)
    (url html_content scrape_type prefix_char run_number_str : String)
    (version : Nat) (s : String)
    (h : (save_scrape_data extract codePicks clock saltPicks lf rf st remote
        url html_content scrape_type prefix_char run_number_str
        version).result = some s) :
    (generate_custom_uuid codePicks clock saltPicks prefix_char run_number_str
        url dbNextSeq st).uuid = some s := by
  unfold save_scrape_data at h
  split at h
  · cases h
  · split at h
    · cases h
    · rename_i cid st1 w heq
      rw [heq]
      rcases Bool.eq_false_or_eq_true (local_save_phase extract lf st1 cid
          ⟨cid, url, isoUtc clock.utcNow, scrape_type, html_content,
            identicalFlag lf st1.conn url html_content, version⟩
          html_content).1 with hlp | hlp <;>
        by_cases h1 : rf.clientConfigured = true <;>
        simp [hlp, h1] at h ⊢ <;>
        exact h

/-- C9: every scheduled capture job with 0-based run index at most 8 passes
the identifier generator the 2-digit decimal of the index PLUS ONE — the
strings 01 through 09, not 00 through 08 — and characters 2-3 (1-indexed) of
any identifier the save produces are exactly those two digits. -/
theorem perform_scrape_run_number_shift
    (extract : String → List TagInfo) (codePicks : Nat → Nat × Nat)
    (clock : Clock) (saltPicks : Nat → Nat) (lf : LocalFaults)
    (rf : RemoteFaults) (fetchResult : Option String) (st : PState)
    (remote : RemoteDB) (url scrape_type : String) (run_index : Nat)
    (hrun : run_index ≤ 8) :
    fmt2 (run_index + 1) = String.mk [('0'), Char.ofNat (49 + run_index)] ∧
    (∀ (r : SaveResult) (s : String),
      perform_scrape extract codePicks clock saltPicks lf rf fetchResult st
        remote url scrape_type run_index = some r →
      r.result = some s →
      List.take 2 (List.drop 1 s.data) =
        [('0'), Char.ofNat (49 + run_index)]) := by
  have hf : fmt2 (run_index + 1) =
      String.mk [('0'), Char.ofNat (49 + run_index)] := by
    interval_cases run_index <;> decide
  refine ⟨hf, ?_⟩
  intro r s hp hs
  cases fetchResult with
  | none => exact absurd hp (by simp [perform_scrape])
  | some html =>
    rw [show perform_scrape extract codePicks clock saltPicks lf rf
        (some html) st remote url scrape_type run_index =
      some (save_scrape_data extract codePicks clock saltPicks lf rf st remote
        url html scrape_type
        (if scrape_type = ("primary") then ("P") else ("B"))
        (fmt2 (run_index + 1)) 1) from rfl] at hp
    injection hp with hp
    rw [← hp] at hs
    have hgen := save_result_some_from_generate extract codePicks clock
      saltPicks lf rf st remote url html scrape_type
      (if scrape_type = ("primary") then ("P") else ("B"))
      (fmt2 (run_index + 1)) 1 s hs
    obtain ⟨t, ht⟩ := generate_uuid_some_shape codePicks clock saltPicks
      (if scrape_type = ("primary") then ("P") else ("B"))
      (fmt2 (run_index + 1)) url dbNextSeq st s hgen
    rw [hf] at ht
    rw [ht]
    have hPd : ("P" : String).data = [('P')] := rfl
    have hBd : ("B" : String).data = [('B')] := rfl
    have hMk : (String.mk [('0'), Char.ofNat (49 + run_index)]).data =
        [('0'), Char.ofNat (49 + run_index)] := rfl
    by_cases hst : scrape_type = ("primary")
    · simp [hst, hPd, hMk]
    · simp [hst, hBd, hMk]

/-- C9 witness: at run index 3 the job passes run number 04 and the produced
identifier carries 0 and 4 at character positions 2-3. -/
theorem perform_scrape_run_number_shift_witness :
    fmt2 (3 + 1) = String.mk [('0'), Char.ofNat (49 + 3)] ∧
    List.take 2 (List.drop 1
        (String.data ("P04AB20250601083000AAAAAAAA001"))) =
      [('0'), Char.ofNat (49 + 3)] :=
  ⟨(perform_scrape_run_number_shift extract2 picks0 clockX salt0 noLocalFaults
      remoteOff (some ("<p>x")) stX ⟨[], []⟩ ("https://a.example") ("primary")
      3 (by decide)).1,
    (perform_scrape_run_number_shift extract2 picks0 clockX salt0
      noLocalFaults remoteOff (some ("<p>x")) stX ⟨[], []⟩
      ("https://a.example") ("primary") 3 (by decide)).2
      (save_scrape_data extract2 picks0 clockX salt0 noLocalFaults remoteOff
        stX ⟨[], []⟩ ("https://a.example") ("<p>x") ("primary")
        (if ("primary" : String) = ("primary") then ("P") else ("B"))
        (fmt2 (3 + 1)) 1)
      ("P04AB20250601083000AAAAAAAA001") rfl (by decide)⟩

/-- C7 (evaluation at the failing input): with ten well-formed primary slots
configured for one url, exactly 9 jobs are scheduled, carrying run indices
0 through 8 equal to each slot's position in the configured list; the tenth
slot is skipped, but the log event recorded for it is an ERROR — produced by
the except-clause catching the NameError from the unimported `warning` — and
no warning-level event is emitted at all. -/
theorem setup_schedules_ten_slots_eval :
    (setup_schedules urlsX times10X []).1.length = 9 ∧
    ((setup_schedules urlsX times10X []).1.map Job.run_index) =
      [0, 1, 2, 3, 4, 5, 6, 7, 8] ∧
    ((setup_schedules urlsX times10X []).2.contains
      (SchedLog.scheduleFailedError ("https://a.example") ("primary")
        ("09:00"))) = true ∧
    ((setup_schedules urlsX times10X []).2.all
      (fun e => !(decide (SchedLog.level e = LogLevel.warnL)))) = true := by
  decide

theorem local_save_phase_keeps_cfg (extract : String → List TagInfo)
    (lf : LocalFaults) (st1 : PState) (capture_id : String) (row : CaptureRow)
    (html_content : String) :
    (local_save_phase extract lf st1 capture_id row html_content).2.1.cfg =
      st1.cfg := by
  unfold local_save_phase
  split
  · rfl
  · split
    · rfl
    · split
      · rfl
      · split
        · rfl
        · rfl

theorem save_keeps_manual (extract : String → List TagInfo)
    (codePicks : Nat → Nat × Nat) (clock : Clock) (saltPicks : Nat → Nat)
    (lf : LocalFaults) (rf : RemoteFaults) (st : PState) (remote : RemoteDB)
    (url html_content scrape_type prefix_char run_number_str : String)
    (version : Nat) :
    (save_scrape_data extract codePicks clock saltPicks lf rf st remote url
        html_content scrape_type prefix_char run_number_str
        version).state.cfg.lastManualPrefixChar =
      st.cfg.lastManualPrefixChar := by
  have hfr := generate_dbNextSeq_frame codePicks clock saltPicks prefix_char
    run_number_str url st
  unfold save_scrape_data
  split
  · rfl
  · rename_i hhtml
    split
    · rename_i st1 w heq
      rw [heq] at hfr
      exact hfr.2.2
    · rename_i cid st1 w heq
      rw [heq] at hfr
      have hcfg := local_save_phase_keeps_cfg extract lf st1 cid
        ⟨cid, url, isoUtc clock.utcNow, scrape_type, html_content,
          identicalFlag lf st1.conn url html_content, version⟩ html_content
      rcases Bool.eq_false_or_eq_true (local_save_phase extract lf st1 cid
          ⟨cid, url, isoUtc clock.utcNow, scrape_type, html_content,
            identicalFlag lf st1.conn url html_content, version⟩
          html_content).1 with hlp | hlp
      · by_cases h1 : rf.clientConfigured = true <;>
          simp [hlp, h1] <;> rw [hcfg] <;> exact hfr.2.2
      · by_cases h1 : rf.clientConfigured = true <;>
          simp [hlp, h1] <;> rw [hcfg] <;> exact hfr.2.2

/-- C10: after a successful fetch, a manual capture persists the flipped
manual prefix and then saves with it: the prefix used is T when the persisted
last prefix was M and M otherwise, the run-slot string is the fixed 99, the
persist action precedes the save action, the save is invoked on the state
already carrying the new prefix, and running manual again afterwards flips
the prefix once more — successive manual runs alternate between T and M. -/
theorem manual_scrape_alternation
    (extract : String → List TagInfo) (codePicks : Nat → Nat × Nat)
    (clock : Clock) (saltPicks : Nat → Nat) (lf : LocalFaults)
    (rf : RemoteFaults) (html : String) (st : PState) (remote : RemoteDB)
    (url scrape_type : String) :
    (manual_scrape extract codePicks clock saltPicks lf rf (some html) st
        remote url scrape_type).actions =
      [MAction.persistPrefixChar
          (next_manual_prefix_char st.cfg.lastManualPrefixChar),
        MAction.saveCapture
          (next_manual_prefix_char st.cfg.lastManualPrefixChar) ("99")] ∧
    (st.cfg.lastManualPrefixChar = ("M") →
      next_manual_prefix_char st.cfg.lastManualPrefixChar = ("T")) ∧
    (st.cfg.lastManualPrefixChar ≠ ("M") →
      next_manual_prefix_char st.cfg.lastManualPrefixChar = ("M")) ∧
    next_manual_prefix_char
        (next_manual_prefix_char st.cfg.lastManualPrefixChar) ≠
      next_manual_prefix_char st.cfg.lastManualPrefixChar ∧
    (manual_scrape extract codePicks clock saltPicks lf rf (some html) st
        remote url scrape_type).saveOutcome =
      some (save_scrape_data extract codePicks clock saltPicks lf rf
        ⟨{ st.cfg with lastManualPrefixChar :=
            next_manual_prefix_char st.cfg.lastManualPrefixChar }, st.conn⟩
        remote url html scrape_type
        (next_manual_prefix_char st.cfg.lastManualPrefixChar) ("99") 1) ∧
    (∀ r : SaveResult,
      (manual_scrape extract codePicks clock saltPicks lf rf (some html) st
        remote url scrape_type).saveOutcome = some r →
      r.state.cfg.lastManualPrefixChar =
        next_manual_prefix_char st.cfg.lastManualPrefixChar) := by
  refine ⟨rfl, ?_, ?_, ?_, rfl, ?_⟩
  · intro hM
    unfold next_manual_prefix_char
    rw [if_pos hM]
  · intro hM
    unfold next_manual_prefix_char
    rw [if_neg hM]
  · by_cases hM : st.cfg.lastManualPrefixChar = ("M")
    · rw [show next_manual_prefix_char st.cfg.lastManualPrefixChar = ("T")
        from by unfold next_manual_prefix_char; rw [if_pos hM]]
      decide
    · rw [show next_manual_prefix_char st.cfg.lastManualPrefixChar = ("M")
        from by unfold next_manual_prefix_char; rw [if_neg hM]]
      decide
  · intro r hr
    rw [show (manual_scrape extract codePicks clock saltPicks lf rf (some html)
        st remote url scrape_type).saveOutcome =
      some (save_scrape_data extract codePicks clock saltPicks lf rf
        ⟨{ st.cfg with lastManualPrefixChar :=
            next_manual_prefix_char st.cfg.lastManualPrefixChar }, st.conn⟩
        remote url html scrape_type
        (next_manual_prefix_char st.cfg.lastManualPrefixChar) ("99") 1)
      from rfl] at hr
    injection hr with hr
    rw [← hr]
    exact save_keeps_manual extract codePicks clock saltPicks lf rf
      ⟨{ st.cfg with lastManualPrefixChar :=
          next_manual_prefix_char st.cfg.lastManualPrefixChar }, st.conn⟩
      remote url html scrape_type
      (next_manual_prefix_char st.cfg.lastManualPrefixChar) ("99") 1

/-- C10 witness: starting from a persisted last prefix M, the manual run
persists T, saves with prefix T and run number 99 in that order, and the
resulting state holds T so the following manual run uses M. -/
theorem manual_scrape_alternation_witness :
    (manual_scrape extract2 picks0 clockX salt0 noLocalFaults remoteOff
        (some ("<p>x")) stX ⟨[], []⟩ ("https://a.example")
        ("manual")).actions =
      [MAction.persistPrefixChar
          (next_manual_prefix_char stX.cfg.lastManualPrefixChar),
        MAction.saveCapture
          (next_manual_prefix_char stX.cfg.lastManualPrefixChar) ("99")] ∧
    (stX.cfg.lastManualPrefixChar = ("M") →
      next_manual_prefix_char stX.cfg.lastManualPrefixChar = ("T")) ∧
    (stX.cfg.lastManualPrefixChar ≠ ("M") →
      next_manual_prefix_char stX.cfg.lastManualPrefixChar = ("M")) ∧
    next_manual_prefix_char
        (next_manual_prefix_char stX.cfg.lastManualPrefixChar) ≠
      next_manual_prefix_char stX.cfg.lastManualPrefixChar ∧
    (manual_scrape extract2 picks0 clockX salt0 noLocalFaults remoteOff
        (some ("<p>x")) stX ⟨[], []⟩ ("https://a.example")
        ("manual")).saveOutcome =
      some (save_scrape_data extract2 picks0 clockX salt0 noLocalFaults
        remoteOff
        ⟨{ stX.cfg with lastManualPrefixChar :=
            next_manual_prefix_char stX.cfg.lastManualPrefixChar }, stX.conn⟩
        ⟨[], []⟩ ("https://a.example") ("<p>x") ("manual")
        (next_manual_prefix_char stX.cfg.lastManualPrefixChar) ("99") 1) ∧
    (∀ r : SaveResult,
      (manual_scrape extract2 picks0 clockX salt0 noLocalFaults remoteOff
        (some ("<p>x")) stX ⟨[], []⟩ ("https://a.example")
        ("manual")).saveOutcome = some r →
      r.state.cfg.lastManualPrefixChar =
        next_manual_prefix_char stX.cfg.lastManualPrefixChar) :=
  manual_scrape_alternation extract2 picks0 clockX salt0 noLocalFaults
    remoteOff ("<p>x") stX ⟨[], []⟩ ("https://a.example") ("manual")

end Webscraper
